import Mathlib

/-!
Verification development for the user/message service and controller layer of a
Q&A/chat backend.  Each definition is a shallow embedding of a function from the
source: JavaScript truthiness on optional string fields is modelled explicitly,
a storage call that may throw is modelled by the `Db` outcome type, and a
service call made by a controller (which may itself reject) is modelled by the
`SvcCall` outcome type.  Controllers are modelled as functions producing the
ordered list of observable actions (service call, socket emission, HTTP
response) so that claims about call order and about which branches reach the
service can be stated directly.
-/

namespace Spec2Proof

/-- A stored user document (`User` in `types`): `_id`, `username`, `password`,
`dateJoined`.  Dates are modelled as natural-number timestamps; `_id` is
optional because a user built by the signup controller has no id yet. -/
structure User where
  _id : Option Nat
  username : String
  password : String
  dateJoined : Nat
deriving DecidableEq, Repr

/-- The password-stripped projection returned across the service boundary
(`SafeUser`): exactly the fields `_id`, `username`, `dateJoined`. -/
structure SafeUser where
  _id : Option Nat
  username : String
  dateJoined : Nat
deriving DecidableEq, Repr

/-- The rest-destructuring `const { password, ...safeUser } = user` from the
service layer: keeps every field of `User` except `password`. -/
def toSafeUser (u : User) : SafeUser :=
  { _id := u._id, username := u.username, dateJoined := u.dateJoined }

/-- `UserCredentials`: username and password supplied to login. -/
structure UserCredentials where
  username : String
  password : String
deriving DecidableEq, Repr

/-- `UserResponse`: a service either resolves with a safe user or with an
`{error: string}` object. -/
inductive UserResponse where
  | safe (u : SafeUser)
  | error (e : String)
deriving DecidableEq, Repr

/-- Outcome of one storage call: the call returned `a`, or it threw an
exception whose `.message` is `msg`. -/
inductive Db (α : Type) where
  | ok (a : α)
  | fail (msg : String)
deriving DecidableEq, Repr

/-- `saveUser` from `user.service.ts`: `UserModel.create` either resolves with
the created document (returned password-stripped) or throws, in which case the
catch block returns the error object. -/
def saveUser (createResult : Db User) : UserResponse :=
  match createResult with
  | .ok createdUser => .safe (toSafeUser createdUser)
  | .fail m => .error ("Error when saving user: " ++ m)

/-- `UserModel.findOne({ username })` over the stored collection, in insertion
order. -/
def findOne (users : List User) (username : String) : Option User :=
  users.find? (fun u => u.username == username)

/-- `getUserByUsername` from `user.service.ts`.  The catch block reuses the
"Error when saving user" message of `saveUser`; the not-found message here has
no trailing period. -/
def getUserByUsername (db : Db (List User)) (username : String) : UserResponse :=
  match db with
  | .fail m => .error ("Error when saving user: " ++ m)
  | .ok users =>
    match findOne users username with
    | none => .error "User not found"
    | some user => .safe (toSafeUser user)

/-- `loginUser` from `user.service.ts`: find by username, then plaintext
comparison of the stored and supplied passwords. -/
def loginUser (db : Db (List User)) (loginCredentials : UserCredentials) : UserResponse :=
  match db with
  | .fail m => .error ("Error logging in user saving user: " ++ m)
  | .ok users =>
    match findOne users loginCredentials.username with
    | none => .error "User not found."
    | some user =>
      if user.password ≠ loginCredentials.password then
        .error "Invalid username or password."
      else
        .safe (toSafeUser user)

/-- `UserModel.findOneAndDelete({ username })`: the document it returns (the
collection shrinks as a side effect, which no claim depends on). -/
def findOneAndDelete (users : List User) (username : String) : Option User :=
  findOne users username

/-- `deleteUserByUsername` from `user.service.ts`. -/
def deleteUserByUsername (db : Db (List User)) (username : String) : UserResponse :=
  match db with
  | .fail m => .error ("Error deleting user: " ++ m)
  | .ok users =>
    match findOneAndDelete users username with
    | none => .error "User not found."
    | some deletedUser => .safe (toSafeUser deletedUser)

/-- The `updates` argument of `updateUser`, a subset of the fields of `User`
(`Partial<User>` restricted to the updatable fields). -/
structure UserUpdates where
  username : Option String
  password : Option String
  dateJoined : Option Nat
deriving DecidableEq, Repr

/-- Application of a partial update to a stored document. -/
def applyUpdates (u : User) (updates : UserUpdates) : User :=
  { u with
    username := updates.username.getD u.username
    password := updates.password.getD u.password
    dateJoined := updates.dateJoined.getD u.dateJoined }

/-- `UserModel.findOneAndUpdate({ username }, updates, { new: true })`: the
updated document, or `null` when no document matches. -/
def findOneAndUpdate (users : List User) (username : String) (updates : UserUpdates) :
    Option User :=
  (findOne users username).map (fun u => applyUpdates u updates)

/-- `updateUser` from `user.service.ts`. -/
def updateUser (db : Db (List User)) (username : String) (updates : UserUpdates) :
    UserResponse :=
  match db with
  | .fail m => .error ("Error updating user: " ++ m)
  | .ok users =>
    match findOneAndUpdate users username updates with
    | none => .error "User not found."
    | some updatedUser => .safe (toSafeUser updatedUser)

/-- A stored message document: `msg`, `msgFrom`, `msgDateTime` (timestamp as a
natural number). -/
structure Message where
  msg : String
  msgFrom : String
  msgDateTime : Nat
deriving DecidableEq, Repr

/-- `MessageResponse`: the saved message or an `{error: string}` object. -/
inductive MessageResponse where
  | ok (m : Message)
  | error (e : String)
deriving DecidableEq, Repr

/-- `saveMessage` from `message.service.ts`: on a thrown exception the catch
block returns `(e as Error).message || 'Failed to save message'`, so an empty
(falsy) message falls back to the fixed string. -/
def saveMessage (createResult : Db Message) : MessageResponse :=
  match createResult with
  | .ok saved => .ok saved
  | .fail m => .error (if m = "" then "Failed to save message" else m)

/-- The comparison `{ msgDateTime: 1 }` used by the storage sort: ascending
timestamps. -/
def msgLe (a b : Message) : Bool :=
  decide (a.msgDateTime ≤ b.msgDateTime)

/-- `MessageModel.find().sort({ msgDateTime: 1 })`: a stable ascending sort of
the stored messages, modelled by the (stable) merge sort on the insertion-order
list. -/
def sortByMsgDateTime (l : List Message) : List Message :=
  l.mergeSort msgLe

/-- `getMessages` from `message.service.ts`: the sorted messages, or the empty
list when the storage query throws. -/
def getMessages (findResult : Db (List Message)) : List Message :=
  match findResult with
  | .fail _ => []
  | .ok messages => sortByMsgDateTime messages

/-! Controller layer.  Request fields are `Option`s: `none` is an absent field,
`some ""` a present empty string; `truthyStr` is the JavaScript `!!` test on
such a field (both absent and empty are falsy). -/

/-- JavaScript truthiness of an optional string field. -/
def truthyStr : Option String → Bool
  | none => false
  | some s => s != ""

/-- JavaScript truthiness of an optional date field: a present `Date` object is
truthy, an absent one falsy. -/
def truthyDate : Option Nat → Bool
  | none => false
  | some _ => true

/-- An HTTP response body as serialized by the controllers. -/
inductive Body where
  | jsonError (error : String)
  | jsonUser (u : SafeUser)
  | jsonMessage (m : Message)
  | jsonMessages (ms : List Message)
deriving DecidableEq, Repr

/-- An HTTP response: status code and JSON body. -/
structure HttpResponse where
  status : Nat
  body : Body
deriving DecidableEq, Repr

/-- Outcome of the single service invocation a controller awaits: the promise
resolved with a value, or it rejected (the service function itself threw). -/
inductive SvcCall (α : Type) where
  | value (a : α)
  | throw
deriving DecidableEq, Repr

/-- The body of a user request: optional `username` and `password` fields. -/
structure UserBody where
  username : Option String
  password : Option String
deriving DecidableEq, Repr

/-- `isUserBodyValid` from `user.controller.ts`:
`!!req.body.username && !!req.body.password`. -/
def isUserBodyValid (body : UserBody) : Bool :=
  truthyStr body.username && truthyStr body.password

/-- Observable actions of a user route handler, in execution order. -/
inductive UserAction where
  | callSaveUser (u : User)
  | callLoginUser (c : UserCredentials)
  | callGetUserByUsername (username : String)
  | callDeleteUserByUsername (username : String)
  | callUpdateUser (username : String) (updates : UserUpdates)
  | respond (r : HttpResponse)
deriving DecidableEq, Repr

/-- `createUser` (POST /signup): validate, build `userToSave` with
`dateJoined = new Date()` (the `now` parameter), call `saveUser`, map the
result; a rejected service promise reaches the catch block (500). -/
def createUser (body : UserBody) (now : Nat) (svc : SvcCall UserResponse) :
    List UserAction :=
  if isUserBodyValid body then
    let userToSave : User :=
      { _id := none
        username := body.username.getD ""
        password := body.password.getD ""
        dateJoined := now }
    .callSaveUser userToSave ::
    match svc with
    | .throw => [.respond ⟨500, .jsonError "Server error."⟩]
    | .value (.error e) => [.respond ⟨400, .jsonError e⟩]
    | .value (.safe u) => [.respond ⟨201, .jsonUser u⟩]
  else
    [.respond ⟨400, .jsonError "Username and password are required."⟩]

/-- `userLogin` (POST /login): the same truthiness check written inline in the
source, then `loginUser`; an error result maps to 401. -/
def userLogin (body : UserBody) (svc : SvcCall UserResponse) : List UserAction :=
  if truthyStr body.username && truthyStr body.password then
    .callLoginUser ⟨body.username.getD "", body.password.getD ""⟩ ::
    match svc with
    | .throw => [.respond ⟨500, .jsonError "Server error."⟩]
    | .value (.error e) => [.respond ⟨401, .jsonError e⟩]
    | .value (.safe u) => [.respond ⟨200, .jsonUser u⟩]
  else
    [.respond ⟨400, .jsonError "Username and password are required."⟩]

/-- `getUser` (GET /:username): the route parameter, then `getUserByUsername`;
an error result maps to 404. -/
def getUser (usernameParam : Option String) (svc : SvcCall UserResponse) :
    List UserAction :=
  if truthyStr usernameParam then
    .callGetUserByUsername (usernameParam.getD "") ::
    match svc with
    | .throw => [.respond ⟨500, .jsonError "Server error."⟩]
    | .value (.error e) => [.respond ⟨404, .jsonError e⟩]
    | .value (.safe u) => [.respond ⟨200, .jsonUser u⟩]
  else
    [.respond ⟨400, .jsonError "Username parameter is required."⟩]

/-- `deleteUser` (DELETE /:username): `deleteUserByUsername`; an error result
maps to 404. -/
def deleteUser (usernameParam : Option String) (svc : SvcCall UserResponse) :
    List UserAction :=
  if truthyStr usernameParam then
    .callDeleteUserByUsername (usernameParam.getD "") ::
    match svc with
    | .throw => [.respond ⟨500, .jsonError "Server error."⟩]
    | .value (.error e) => [.respond ⟨404, .jsonError e⟩]
    | .value (.safe u) => [.respond ⟨200, .jsonUser u⟩]
  else
    [.respond ⟨400, .jsonError "Username parameter is required."⟩]

/-- `resetPassword` (PATCH /resetPassword): calls
`updateUser(username, { password })`; an error result maps to 404. -/
def resetPassword (body : UserBody) (svc : SvcCall UserResponse) : List UserAction :=
  if truthyStr body.username && truthyStr body.password then
    .callUpdateUser (body.username.getD "")
      ⟨none, some (body.password.getD ""), none⟩ ::
    match svc with
    | .throw => [.respond ⟨500, .jsonError "Server error."⟩]
    | .value (.error e) => [.respond ⟨404, .jsonError e⟩]
    | .value (.safe u) => [.respond ⟨200, .jsonUser u⟩]
  else
    [.respond ⟨400, .jsonError "Username and new password are required."⟩]

/-- The `messageToAdd` object of an add-message request, with each field
optional. -/
structure MessageToAdd where
  msg : Option String
  msgFrom : Option String
  msgDateTime : Option Nat
deriving DecidableEq, Repr

/-- `isRequestValid` from `message.controller.ts`:
`!!msg && !!msg.msg && !!msg.msgFrom && !!msg.msgDateTime` where `msg` is
`req.body.messageToAdd`. -/
def isRequestValid (messageToAdd : Option MessageToAdd) : Bool :=
  match messageToAdd with
  | none => false
  | some m => truthyStr m.msg && truthyStr m.msgFrom && truthyDate m.msgDateTime

/-- `isMessageValid` from `message.controller.ts`: the same field checks on the
message object itself. -/
def isMessageValid (message : MessageToAdd) : Bool :=
  truthyStr message.msg && truthyStr message.msgFrom && truthyDate message.msgDateTime

/-- The message value passed on to `saveMessage` once the optional fields have
been checked present. -/
def toMessage (b : MessageToAdd) : Message :=
  ⟨b.msg.getD "", b.msgFrom.getD "", b.msgDateTime.getD 0⟩

/-- Observable actions of a message route handler, in execution order. -/
inductive MsgAction where
  | callSaveMessage (m : Message)
  | emitMessageUpdate (m : Message)
  | respond (r : HttpResponse)
deriving DecidableEq, Repr

/-- `addMessageRoute` (POST /addMessage): request validation (400), message
validation (400), `saveMessage`, then on success the `messageUpdate` socket
emission followed by the 201 response; a save error responds 500 with the
error object, a rejected promise reaches the catch block (500). -/
def addMessageRoute (messageToAdd : Option MessageToAdd) (svc : SvcCall MessageResponse) :
    List MsgAction :=
  if isRequestValid messageToAdd then
    match messageToAdd with
    | none => [.respond ⟨400, .jsonError "Invalid message body"⟩]
    | some b =>
      if isMessageValid b then
        .callSaveMessage (toMessage b) ::
        match svc with
        | .throw => [.respond ⟨500, .jsonError "Failed to save message"⟩]
        | .value (.error e) => [.respond ⟨500, .jsonError e⟩]
        | .value (.ok saved) =>
          [.emitMessageUpdate saved, .respond ⟨201, .jsonMessage saved⟩]
      else
        [.respond ⟨400, .jsonError "Invalid message object"⟩]
  else
    [.respond ⟨400, .jsonError "Invalid message body"⟩]

/-- `getMessagesRoute` (GET /getMessages): 200 with the messages, or 500 with
the fixed message when the service promise rejects. -/
def getMessagesRoute (svc : SvcCall (List Message)) : HttpResponse :=
  match svc with
  | .throw => ⟨500, .jsonError "Failed to fetch messages"⟩
  | .value messages => ⟨200, .jsonMessages messages⟩

/-! Demonstration values used by witness theorems. -/

/-- A concrete stored user. -/
def demoUser : User := { _id := some 1, username := "sana", password := "pw", dateJoined := 7 }

/-- A concrete message. -/
def demoMessage : Message := { msg := "Hello", msgFrom := "sana", msgDateTime := 5 }

/-! Claims. -/

/-- C1: every user service operation that succeeds returns a `SafeUser`
projection — exactly the fields `_id`, `username`, `dateJoined` of some stored
user, with the password stripped by `toSafeUser`; no success value carries a
password field. -/
theorem c1_success_is_safe_user :
    (∀ (cr : Db User) (s : SafeUser), saveUser cr = .safe s →
      ∃ u, cr = .ok u ∧ s = toSafeUser u)
  ∧ (∀ (db : Db (List User)) (name : String) (s : SafeUser),
      getUserByUsername db name = .safe s →
      ∃ users u, db = .ok users ∧ findOne users name = some u ∧ s = toSafeUser u)
  ∧ (∀ (db : Db (List User)) (c : UserCredentials) (s : SafeUser),
      loginUser db c = .safe s →
      ∃ users u, db = .ok users ∧ findOne users c.username = some u ∧
        u.password = c.password ∧ s = toSafeUser u)
  ∧ (∀ (db : Db (List User)) (name : String) (s : SafeUser),
      deleteUserByUsername db name = .safe s →
      ∃ users u, db = .ok users ∧ findOneAndDelete users name = some u ∧ s = toSafeUser u)
  ∧ (∀ (db : Db (List User)) (name : String) (upd : UserUpdates) (s : SafeUser),
      updateUser db name upd = .safe s →
      ∃ users u, db = .ok users ∧ findOneAndUpdate users name upd = some u ∧
        s = toSafeUser u) := by
  refine ⟨?_, ?_, ?_, ?_, ?_⟩
  · intro cr s h
    cases cr with
    | ok u =>
      refine ⟨u, rfl, ?_⟩
      simpa [saveUser] using h.symm
    | fail m => simp [saveUser] at h
  · intro db name s h
    cases db with
    | fail m => simp [getUserByUsername] at h
    | ok users =>
      cases hf : findOne users name with
      | none => simp [getUserByUsername, hf] at h
      | some u =>
        refine ⟨users, u, rfl, hf, ?_⟩
        simp [getUserByUsername, hf] at h
        exact h.symm
  · intro db c s h
    cases db with
    | fail m => simp [loginUser] at h
    | ok users =>
      cases hf : findOne users c.username with
      | none => simp [loginUser, hf] at h
      | some u =>
        simp only [loginUser, hf] at h
        split at h
        · simp at h
        · rename_i hpw
          refine ⟨users, u, rfl, hf, by simpa using hpw, ?_⟩
          simpa using h.symm
  · intro db name s h
    cases db with
    | fail m => simp [deleteUserByUsername] at h
    | ok users =>
      cases hf : findOneAndDelete users name with
      | none => simp [deleteUserByUsername, hf] at h
      | some u =>
        refine ⟨users, u, rfl, hf, ?_⟩
        simp [deleteUserByUsername, hf] at h
        exact h.symm
  · intro db name upd s h
    cases db with
    | fail m => simp [updateUser] at h
    | ok users =>
      cases hf : findOneAndUpdate users name upd with
      | none => simp [updateUser, hf] at h
      | some u =>
        refine ⟨users, u, rfl, hf, ?_⟩
        simp [updateUser, hf] at h
        exact h.symm

/-- Witness for C1: the five implications applied at concrete successful
inputs. -/
theorem c1_success_is_safe_user_witness :
    (∃ u, Db.ok demoUser = Db.ok u ∧ toSafeUser demoUser = toSafeUser u)
  ∧ (∃ users u, Db.ok [demoUser] = Db.ok users ∧ findOne users "sana" = some u ∧
      toSafeUser demoUser = toSafeUser u)
  ∧ (∃ users u, Db.ok [demoUser] = Db.ok users ∧
      findOne users (UserCredentials.mk "sana" "pw").username = some u ∧
      u.password = (UserCredentials.mk "sana" "pw").password ∧
      toSafeUser demoUser = toSafeUser u)
  ∧ (∃ users u, Db.ok [demoUser] = Db.ok users ∧ findOneAndDelete users "sana" = some u ∧
      toSafeUser demoUser = toSafeUser u)
  ∧ (∃ users u, Db.ok [demoUser] = Db.ok users ∧
      findOneAndUpdate users "sana" ⟨none, some "q", none⟩ = some u ∧
      toSafeUser (applyUpdates demoUser ⟨none, some "q", none⟩) = toSafeUser u) := by
  refine ⟨?_, ?_, ?_, ?_, ?_⟩
  · exact c1_success_is_safe_user.1 (Db.ok demoUser) (toSafeUser demoUser) rfl
  · exact c1_success_is_safe_user.2.1 (Db.ok [demoUser]) "sana" (toSafeUser demoUser)
      (by decide)
  · exact c1_success_is_safe_user.2.2.1 (Db.ok [demoUser]) ⟨"sana", "pw"⟩
      (toSafeUser demoUser) (by decide)
  · exact c1_success_is_safe_user.2.2.2.1 (Db.ok [demoUser]) "sana" (toSafeUser demoUser)
      (by decide)
  · exact c1_success_is_safe_user.2.2.2.2 (Db.ok [demoUser]) "sana" ⟨none, some "q", none⟩
      (toSafeUser (applyUpdates demoUser ⟨none, some "q", none⟩)) (by decide)

/-- C2: over a functioning store, `loginUser` answers "User not found." exactly
when no user has the supplied username, and "Invalid username or password."
exactly when such a user exists but the stored password differs; the two
messages never occur in the opposite situations. -/
theorem c2_login_error_messages (users : List User) (c : UserCredentials) :
    (loginUser (.ok users) c = .error "User not found." ↔
      findOne users c.username = none)
  ∧ (loginUser (.ok users) c = .error "Invalid username or password." ↔
      ∃ u, findOne users c.username = some u ∧ u.password ≠ c.password) := by
  cases hf : findOne users c.username with
  | none =>
    have hrun : loginUser (.ok users) c = .error "User not found." := by
      simp [loginUser, hf]
    rw [hrun]
    constructor
    · exact ⟨fun _ => rfl, fun _ => rfl⟩
    · constructor
      · intro h
        exact absurd (UserResponse.error.inj h) (by decide)
      · rintro ⟨u, hu, -⟩
        exact absurd hu (by simp)
  | some u =>
    have hrun : loginUser (.ok users) c =
        if u.password ≠ c.password then .error "Invalid username or password."
        else .safe (toSafeUser u) := by
      simp [loginUser, hf]
    by_cases hp : u.password = c.password
    · rw [hrun, if_neg (not_not_intro hp)]
      constructor
      · constructor
        · intro h; exact absurd h (by simp)
        · intro h; exact absurd h (by simp)
      · constructor
        · intro h; exact absurd h (by simp)
        · rintro ⟨u', hu', hne⟩
          injection hu' with hu'
          exact absurd (hu' ▸ hp) hne
    · rw [hrun, if_pos hp]
      constructor
      · constructor
        · intro h
          exact absurd (UserResponse.error.inj h) (by decide)
        · intro h; exact absurd h (by simp)
      · exact ⟨fun _ => ⟨u, rfl, hp⟩, fun _ => rfl⟩

/-- C3: `getMessages` never produces an error value: a throwing storage query
yields the empty list, a functioning one yields all stored messages (the
result is a permutation of the store). -/
theorem c3_getMessages_total :
    (∀ m, getMessages (Db.fail m) = [])
  ∧ (∀ l, (getMessages (Db.ok l)).Perm l) := by
  refine ⟨fun m => rfl, fun l => ?_⟩
  simpa [getMessages, sortByMsgDateTime] using List.mergeSort_perm l msgLe

/-- The storage comparison is transitive. -/
lemma msgLe_trans : ∀ (a b c : Message), msgLe a b → msgLe b c → msgLe a c := by
  intro a b c hab hbc
  simp only [msgLe, decide_eq_true_eq] at *
  omega

/-- The storage comparison is total. -/
lemma msgLe_total : ∀ (a b : Message), msgLe a b || msgLe b a := by
  intro a b
  simp only [msgLe, Bool.or_eq_true, decide_eq_true_eq]
  omega

/-- C4: over a functioning store, `getMessages` returns the messages in
non-decreasing `msgDateTime` order; every stored message appears in the result,
and for each timestamp the subsequence of messages carrying it is exactly the
insertion-order subsequence of the store (the sort is stable). -/
theorem c4_getMessages_sorted_stable (l : List Message) :
    List.Pairwise (fun a b => a.msgDateTime ≤ b.msgDateTime) (getMessages (Db.ok l))
  ∧ (∀ m, m ∈ getMessages (Db.ok l) ↔ m ∈ l)
  ∧ ∀ t, (getMessages (Db.ok l)).filter (fun m => m.msgDateTime == t)
      = l.filter (fun m => m.msgDateTime == t) := by
  refine ⟨?_, ?_, ?_⟩
  · have h := @List.sorted_mergeSort Message msgLe msgLe_trans msgLe_total l
    simp only [getMessages, sortByMsgDateTime]
    refine h.imp ?_
    intro a b hab
    simpa [msgLe] using hab
  · intro m
    simp [getMessages, sortByMsgDateTime]
  · intro t
    simp only [getMessages, sortByMsgDateTime]
    have hmem : ∀ x ∈ l.filter (fun m => m.msgDateTime == t), (fun m => m.msgDateTime == t) x =
        true :=
      fun x hx => (List.mem_filter.mp hx).2
    have hpw : (l.filter (fun m => m.msgDateTime == t)).Pairwise (fun a b => msgLe a b) := by
      apply List.pairwise_of_forall_mem_list
      intro a ha b hb
      have ha' := (List.mem_filter.mp ha).2
      have hb' := (List.mem_filter.mp hb).2
      simp only [beq_iff_eq] at ha' hb'
      simp [msgLe, ha', hb']
    have hbig : List.Sublist (l.filter (fun m => m.msgDateTime == t)) (l.mergeSort msgLe) :=
      List.sublist_mergeSort msgLe_trans msgLe_total hpw (List.filter_sublist l)
    have h1 : List.Sublist (l.filter (fun m => m.msgDateTime == t))
        ((l.mergeSort msgLe).filter (fun m => m.msgDateTime == t)) := by
      have h2 := hbig.filter (fun m => m.msgDateTime == t)
      rwa [List.filter_eq_self.mpr hmem] at h2
    have hlen : ((l.mergeSort msgLe).filter (fun m => m.msgDateTime == t)).length =
        (l.filter (fun m => m.msgDateTime == t)).length :=
      ((List.mergeSort_perm l msgLe).filter (fun m => m.msgDateTime == t)).length_eq
    exact (h1.eq_of_length hlen.symm).symm

/-- C5: every user service operation is total at its boundary: a thrown storage
exception is caught and converted to the operation's `{error: ...}` message,
and every result is either a safe user or an error object. -/
theorem c5_user_service_total :
    (∀ m, saveUser (.fail m) = .error ("Error when saving user: " ++ m))
  ∧ (∀ m name, getUserByUsername (.fail m) name = .error ("Error when saving user: " ++ m))
  ∧ (∀ m c, loginUser (.fail m) c = .error ("Error logging in user saving user: " ++ m))
  ∧ (∀ m name, deleteUserByUsername (.fail m) name = .error ("Error deleting user: " ++ m))
  ∧ (∀ m name upd, updateUser (.fail m) name upd = .error ("Error updating user: " ++ m))
  ∧ (∀ cr, (∃ s, saveUser cr = .safe s) ∨ (∃ e, saveUser cr = .error e))
  ∧ (∀ db name, (∃ s, getUserByUsername db name = .safe s) ∨
      (∃ e, getUserByUsername db name = .error e))
  ∧ (∀ db c, (∃ s, loginUser db c = .safe s) ∨ (∃ e, loginUser db c = .error e))
  ∧ (∀ db name, (∃ s, deleteUserByUsername db name = .safe s) ∨
      (∃ e, deleteUserByUsername db name = .error e))
  ∧ (∀ db name upd, (∃ s, updateUser db name upd = .safe s) ∨
      (∃ e, updateUser db name upd = .error e)) := by
  refine ⟨fun m => rfl, fun m name => rfl, fun m c => rfl, fun m name => rfl,
    fun m name upd => rfl, ?_, ?_, ?_, ?_, ?_⟩
  · intro cr
    cases h : saveUser cr with
    | safe s => exact .inl ⟨s, rfl⟩
    | error e => exact .inr ⟨e, rfl⟩
  · intro db name
    cases h : getUserByUsername db name with
    | safe s => exact .inl ⟨s, rfl⟩
    | error e => exact .inr ⟨e, rfl⟩
  · intro db c
    cases h : loginUser db c with
    | safe s => exact .inl ⟨s, rfl⟩
    | error e => exact .inr ⟨e, rfl⟩
  · intro db name
    cases h : deleteUserByUsername db name with
    | safe s => exact .inl ⟨s, rfl⟩
    | error e => exact .inr ⟨e, rfl⟩
  · intro db name upd
    cases h : updateUser db name upd with
    | safe s => exact .inl ⟨s, rfl⟩
    | error e => exact .inr ⟨e, rfl⟩

/-- C6: the user controllers' status mapping.  For valid requests: a service
error result responds 404 on get/delete/reset and 401 on login; fetching or
deleting a username absent from the store responds 404 with an error body
containing "User not found"; a throwing service function responds 500 with the
fixed body "Server error."; success responds 200 (login, get, delete, reset)
or 201 (signup). -/
theorem c6_user_status_mapping (users : List User) (name un pw e : String)
    (now : Nat) (u : SafeUser) (hn : name ≠ "") (hu : un ≠ "") (hp : pw ≠ "") :
    (getUser (some name) (.value (.error e)) =
      [.callGetUserByUsername name, .respond ⟨404, .jsonError e⟩])
  ∧ (deleteUser (some name) (.value (.error e)) =
      [.callDeleteUserByUsername name, .respond ⟨404, .jsonError e⟩])
  ∧ (resetPassword ⟨some un, some pw⟩ (.value (.error e)) =
      [.callUpdateUser un ⟨none, some pw, none⟩, .respond ⟨404, .jsonError e⟩])
  ∧ (userLogin ⟨some un, some pw⟩ (.value (.error e)) =
      [.callLoginUser ⟨un, pw⟩, .respond ⟨401, .jsonError e⟩])
  ∧ (findOne users name = none →
      ∃ msg, getUser (some name) (.value (getUserByUsername (.ok users) name)) =
          [.callGetUserByUsername name, .respond ⟨404, .jsonError msg⟩]
        ∧ List.IsInfix ("User not found").data msg.data)
  ∧ (findOne users name = none →
      ∃ msg, deleteUser (some name) (.value (deleteUserByUsername (.ok users) name)) =
          [.callDeleteUserByUsername name, .respond ⟨404, .jsonError msg⟩]
        ∧ List.IsInfix ("User not found").data msg.data)
  ∧ (getUser (some name) .throw =
      [.callGetUserByUsername name, .respond ⟨500, .jsonError "Server error."⟩])
  ∧ (deleteUser (some name) .throw =
      [.callDeleteUserByUsername name, .respond ⟨500, .jsonError "Server error."⟩])
  ∧ (resetPassword ⟨some un, some pw⟩ .throw =
      [.callUpdateUser un ⟨none, some pw, none⟩,
       .respond ⟨500, .jsonError "Server error."⟩])
  ∧ (userLogin ⟨some un, some pw⟩ .throw =
      [.callLoginUser ⟨un, pw⟩, .respond ⟨500, .jsonError "Server error."⟩])
  ∧ (createUser ⟨some un, some pw⟩ now .throw =
      [.callSaveUser ⟨none, un, pw, now⟩, .respond ⟨500, .jsonError "Server error."⟩])
  ∧ (getUser (some name) (.value (.safe u)) =
      [.callGetUserByUsername name, .respond ⟨200, .jsonUser u⟩])
  ∧ (deleteUser (some name) (.value (.safe u)) =
      [.callDeleteUserByUsername name, .respond ⟨200, .jsonUser u⟩])
  ∧ (resetPassword ⟨some un, some pw⟩ (.value (.safe u)) =
      [.callUpdateUser un ⟨none, some pw, none⟩, .respond ⟨200, .jsonUser u⟩])
  ∧ (userLogin ⟨some un, some pw⟩ (.value (.safe u)) =
      [.callLoginUser ⟨un, pw⟩, .respond ⟨200, .jsonUser u⟩])
  ∧ (createUser ⟨some un, some pw⟩ now (.value (.safe u)) =
      [.callSaveUser ⟨none, un, pw, now⟩, .respond ⟨201, .jsonUser u⟩]) := by
  have tn : truthyStr (some name) = true := by simp [truthyStr, hn]
  have tu : truthyStr (some un) = true := by simp [truthyStr, hu]
  have tp : truthyStr (some pw) = true := by simp [truthyStr, hp]
  refine ⟨by simp [getUser, tn], by simp [deleteUser, tn],
    by simp [resetPassword, tu, tp], by simp [userLogin, tu, tp],
    ?_, ?_,
    by simp [getUser, tn], by simp [deleteUser, tn],
    by simp [resetPassword, tu, tp], by simp [userLogin, tu, tp],
    by simp [createUser, isUserBodyValid, tu, tp],
    by simp [getUser, tn], by simp [deleteUser, tn],
    by simp [resetPassword, tu, tp], by simp [userLogin, tu, tp],
    by simp [createUser, isUserBodyValid, tu, tp]⟩
  · intro hf
    refine ⟨"User not found", ?_, List.infix_rfl⟩
    simp [getUser, tn, getUserByUsername, hf]
  · intro hf
    refine ⟨"User not found.", ?_, ⟨[], ['.'], by decide⟩⟩
    simp [deleteUser, tn, deleteUserByUsername, findOneAndDelete, hf]

/-- Witness for C6: the mapping at concrete inputs (empty store, username
"sana", password "pw", error text "boom"). -/
theorem c6_user_status_mapping_witness :
    (getUser (some "sana") (.value (.error "boom")) =
      [.callGetUserByUsername "sana", .respond ⟨404, .jsonError "boom"⟩])
  ∧ (∃ msg, getUser (some "sana") (.value (getUserByUsername (.ok []) "sana")) =
        [.callGetUserByUsername "sana", .respond ⟨404, .jsonError msg⟩]
      ∧ List.IsInfix ("User not found").data msg.data)
  ∧ (∃ msg, deleteUser (some "sana") (.value (deleteUserByUsername (.ok []) "sana")) =
        [.callDeleteUserByUsername "sana", .respond ⟨404, .jsonError msg⟩]
      ∧ List.IsInfix ("User not found").data msg.data)
  ∧ (userLogin ⟨some "sana", some "pw"⟩ .throw =
      [.callLoginUser ⟨"sana", "pw"⟩, .respond ⟨500, .jsonError "Server error."⟩])
  ∧ (createUser ⟨some "sana", some "pw"⟩ 0 (.value (.safe (toSafeUser demoUser))) =
      [.callSaveUser ⟨none, "sana", "pw", 0⟩,
       .respond ⟨201, .jsonUser (toSafeUser demoUser)⟩]) := by
  have h := c6_user_status_mapping [] "sana" "sana" "pw" "boom" 0 (toSafeUser demoUser)
    (by decide) (by decide) (by decide)
  exact ⟨h.1, h.2.2.2.2.1 rfl, h.2.2.2.2.2.1 rfl, h.2.2.2.2.2.2.2.2.2.1,
    h.2.2.2.2.2.2.2.2.2.2.2.2.2.2.2⟩

/-- C7: per successful message creation the handler's action trace is exactly
the save call, then one `messageUpdate` emission carrying the saved message,
then the 201 response — so the emission happens once, after the successful
write and before the response; and no emission occurs when validation fails,
when the save returns an error, or when the save call throws. -/
theorem c7_messageUpdate_emission (b? : Option MessageToAdd)
    (svc : SvcCall MessageResponse) :
    (∀ saved, isRequestValid b? = true → svc = .value (.ok saved) →
      ∃ b, b? = some b ∧
        addMessageRoute b? svc =
          [.callSaveMessage (toMessage b), .emitMessageUpdate saved,
           .respond ⟨201, .jsonMessage saved⟩])
  ∧ (isRequestValid b? = false →
      ∀ m, MsgAction.emitMessageUpdate m ∉ addMessageRoute b? svc)
  ∧ (∀ e, svc = .value (.error e) →
      ∀ m, MsgAction.emitMessageUpdate m ∉ addMessageRoute b? svc)
  ∧ (svc = .throw →
      ∀ m, MsgAction.emitMessageUpdate m ∉ addMessageRoute b? svc) := by
  refine ⟨?_, ?_, ?_, ?_⟩
  · intro saved hreq hsvc
    subst hsvc
    cases b? with
    | none => simp [isRequestValid] at hreq
    | some b =>
      have hmv : isMessageValid b = true := hreq
      exact ⟨b, rfl, by simp [addMessageRoute, hreq, hmv]⟩
  · intro hreq m
    unfold addMessageRoute
    rw [if_neg (by simp [hreq])]
    simp
  · intro e hsvc m
    subst hsvc
    cases hreq : isRequestValid b? with
    | false =>
      unfold addMessageRoute
      rw [if_neg (by simp [hreq])]
      simp
    | true =>
      cases b? with
      | none => simp [isRequestValid] at hreq
      | some b =>
        have hmv : isMessageValid b = true := hreq
        simp [addMessageRoute, hreq, hmv]
  · intro hsvc m
    subst hsvc
    cases hreq : isRequestValid b? with
    | false =>
      unfold addMessageRoute
      rw [if_neg (by simp [hreq])]
      simp
    | true =>
      cases b? with
      | none => simp [isRequestValid] at hreq
      | some b =>
        have hmv : isMessageValid b = true := hreq
        simp [addMessageRoute, hreq, hmv]

/-- Witness for C7: the exact trace on a concrete valid request whose save
succeeds. -/
theorem c7_messageUpdate_emission_witness :
    ∃ b, some (MessageToAdd.mk (some "Hello") (some "sana") (some 5)) = some b ∧
      addMessageRoute (some (MessageToAdd.mk (some "Hello") (some "sana") (some 5)))
          (.value (.ok demoMessage)) =
        [.callSaveMessage (toMessage b), .emitMessageUpdate demoMessage,
         .respond ⟨201, .jsonMessage demoMessage⟩] :=
  (c7_messageUpdate_emission (some ⟨some "Hello", some "sana", some 5⟩)
    (.value (.ok demoMessage))).1 demoMessage (by decide) rfl

/-- C8: an add-message request missing `messageToAdd` or any of its fields
`msg`, `msgFrom`, `msgDateTime` is answered 400 with body "Invalid message
body", and the trace contains no service call. -/
theorem c8_addMessage_validation (b : MessageToAdd) (svc : SvcCall MessageResponse)
    (h : b.msg = none ∨ b.msgFrom = none ∨ b.msgDateTime = none) :
    addMessageRoute (some b) svc = [.respond ⟨400, .jsonError "Invalid message body"⟩]
  ∧ (∀ m, MsgAction.callSaveMessage m ∉ addMessageRoute (some b) svc)
  ∧ ∀ svc2, addMessageRoute none svc2 =
      [.respond ⟨400, .jsonError "Invalid message body"⟩] := by
  have hreq : isRequestValid (some b) = false := by
    rcases h with h | h | h <;> simp [isRequestValid, truthyStr, truthyDate, h]
  have htrace : addMessageRoute (some b) svc =
      [.respond ⟨400, .jsonError "Invalid message body"⟩] := by
    unfold addMessageRoute
    rw [if_neg (by simp [hreq])]
  refine ⟨htrace, ?_, fun svc2 => rfl⟩
  intro m
  rw [htrace]
  simp

/-- Witness for C8: a request whose `msg` field is absent. -/
theorem c8_addMessage_validation_witness :
    addMessageRoute (some (MessageToAdd.mk none (some "sana") (some 5)))
        (.value (.ok demoMessage)) =
      [.respond ⟨400, .jsonError "Invalid message body"⟩]
  ∧ (∀ m, MsgAction.callSaveMessage m ∉
      addMessageRoute (some (MessageToAdd.mk none (some "sana") (some 5)))
        (.value (.ok demoMessage)))
  ∧ ∀ svc2, addMessageRoute none svc2 =
      [.respond ⟨400, .jsonError "Invalid message body"⟩] :=
  c8_addMessage_validation ⟨none, some "sana", some 5⟩ (.value (.ok demoMessage))
    (Or.inl rfl)

/-- In `getUser`, a 500 response only arises from a rejected service promise. -/
lemma getUser_500_only_throw (p : Option String) (svc : SvcCall UserResponse)
    (r : HttpResponse) (h500 : r.status = 500)
    (hmem : UserAction.respond r ∈ getUser p svc) : svc = .throw := by
  cases svc with
  | throw => rfl
  | value res =>
    exfalso
    unfold getUser at hmem
    by_cases hv : truthyStr p = true
    · rw [if_pos hv] at hmem
      cases res with
      | safe u =>
        simp at hmem
        rw [hmem] at h500
        simp at h500
      | error e =>
        simp at hmem
        rw [hmem] at h500
        simp at h500
    · rw [if_neg hv] at hmem
      simp at hmem
      rw [hmem] at h500
      simp at h500

/-- In `deleteUser`, a 500 response only arises from a rejected service
promise. -/
lemma deleteUser_500_only_throw (p : Option String) (svc : SvcCall UserResponse)
    (r : HttpResponse) (h500 : r.status = 500)
    (hmem : UserAction.respond r ∈ deleteUser p svc) : svc = .throw := by
  cases svc with
  | throw => rfl
  | value res =>
    exfalso
    unfold deleteUser at hmem
    by_cases hv : truthyStr p = true
    · rw [if_pos hv] at hmem
      cases res with
      | safe u =>
        simp at hmem
        rw [hmem] at h500
        simp at h500
      | error e =>
        simp at hmem
        rw [hmem] at h500
        simp at h500
    · rw [if_neg hv] at hmem
      simp at hmem
      rw [hmem] at h500
      simp at h500

/-- In `userLogin`, a 500 response only arises from a rejected service
promise. -/
lemma userLogin_500_only_throw (body : UserBody) (svc : SvcCall UserResponse)
    (r : HttpResponse) (h500 : r.status = 500)
    (hmem : UserAction.respond r ∈ userLogin body svc) : svc = .throw := by
  cases svc with
  | throw => rfl
  | value res =>
    exfalso
    unfold userLogin at hmem
    by_cases hv : (truthyStr body.username && truthyStr body.password) = true
    · rw [if_pos hv] at hmem
      cases res with
      | safe u =>
        simp at hmem
        rw [hmem] at h500
        simp at h500
      | error e =>
        simp at hmem
        rw [hmem] at h500
        simp at h500
    · rw [if_neg hv] at hmem
      simp at hmem
      rw [hmem] at h500
      simp at h500

/-- In `resetPassword`, a 500 response only arises from a rejected service
promise. -/
lemma resetPassword_500_only_throw (body : UserBody) (svc : SvcCall UserResponse)
    (r : HttpResponse) (h500 : r.status = 500)
    (hmem : UserAction.respond r ∈ resetPassword body svc) : svc = .throw := by
  cases svc with
  | throw => rfl
  | value res =>
    exfalso
    unfold resetPassword at hmem
    by_cases hv : (truthyStr body.username && truthyStr body.password) = true
    · rw [if_pos hv] at hmem
      cases res with
      | safe u =>
        simp at hmem
        rw [hmem] at h500
        simp at h500
      | error e =>
        simp at hmem
        rw [hmem] at h500
        simp at h500
    · rw [if_neg hv] at hmem
      simp at hmem
      rw [hmem] at h500
      simp at h500

/-- In `createUser`, a 500 response only arises from a rejected service
promise. -/
lemma createUser_500_only_throw (body : UserBody) (now : Nat)
    (svc : SvcCall UserResponse) (r : HttpResponse) (h500 : r.status = 500)
    (hmem : UserAction.respond r ∈ createUser body now svc) : svc = .throw := by
  cases svc with
  | throw => rfl
  | value res =>
    exfalso
    unfold createUser at hmem
    by_cases hv : isUserBodyValid body = true
    · rw [if_pos hv] at hmem
      cases res with
      | safe u =>
        simp at hmem
        rw [hmem] at h500
        simp at h500
      | error e =>
        simp at hmem
        rw [hmem] at h500
        simp at h500
    · rw [if_neg hv] at hmem
      simp at hmem
      rw [hmem] at h500
      simp at h500

/-- C9: a storage failure caught inside a service becomes an `{error: ...}`
result, which the controller answers with the not-found-style status — 401 for
login, 404 for get, delete and reset — never 500; the 500 "Server error."
branch of each handler is reachable only when the service call itself
rejects. -/
theorem c9_caught_storage_error_status (m name un pw : String)
    (hn : name ≠ "") (hu : un ≠ "") (hp : pw ≠ "") :
    (userLogin ⟨some un, some pw⟩ (.value (loginUser (.fail m) ⟨un, pw⟩)) =
      [.callLoginUser ⟨un, pw⟩,
       .respond ⟨401, .jsonError ("Error logging in user saving user: " ++ m)⟩])
  ∧ (getUser (some name) (.value (getUserByUsername (.fail m) name)) =
      [.callGetUserByUsername name,
       .respond ⟨404, .jsonError ("Error when saving user: " ++ m)⟩])
  ∧ (deleteUser (some name) (.value (deleteUserByUsername (.fail m) name)) =
      [.callDeleteUserByUsername name,
       .respond ⟨404, .jsonError ("Error deleting user: " ++ m)⟩])
  ∧ (resetPassword ⟨some un, some pw⟩
        (.value (updateUser (.fail m) un ⟨none, some pw, none⟩)) =
      [.callUpdateUser un ⟨none, some pw, none⟩,
       .respond ⟨404, .jsonError ("Error updating user: " ++ m)⟩])
  ∧ (∀ p svc r, HttpResponse.status r = 500 →
      UserAction.respond r ∈ getUser p svc → svc = .throw)
  ∧ (∀ p svc r, HttpResponse.status r = 500 →
      UserAction.respond r ∈ deleteUser p svc → svc = .throw)
  ∧ (∀ body svc r, HttpResponse.status r = 500 →
      UserAction.respond r ∈ userLogin body svc → svc = .throw)
  ∧ (∀ body svc r, HttpResponse.status r = 500 →
      UserAction.respond r ∈ resetPassword body svc → svc = .throw)
  ∧ (∀ body now svc r, HttpResponse.status r = 500 →
      UserAction.respond r ∈ createUser body now svc → svc = .throw) := by
  have tn : truthyStr (some name) = true := by simp [truthyStr, hn]
  have tu : truthyStr (some un) = true := by simp [truthyStr, hu]
  have tp : truthyStr (some pw) = true := by simp [truthyStr, hp]
  refine ⟨by simp [userLogin, tu, tp, loginUser],
    by simp [getUser, tn, getUserByUsername],
    by simp [deleteUser, tn, deleteUserByUsername],
    by simp [resetPassword, tu, tp, updateUser],
    fun p svc r h hm => getUser_500_only_throw p svc r h hm,
    fun p svc r h hm => deleteUser_500_only_throw p svc r h hm,
    fun body svc r h hm => userLogin_500_only_throw body svc r h hm,
    fun body svc r h hm => resetPassword_500_only_throw body svc r h hm,
    fun body now svc r h hm => createUser_500_only_throw body now svc r h hm⟩

/-- Witness for C9: the mapping at concrete inputs (exception message "DB
down", username "sana", password "pw"). -/
theorem c9_caught_storage_error_status_witness :
    (userLogin ⟨some "sana", some "pw"⟩
        (.value (loginUser (.fail "DB down") ⟨"sana", "pw"⟩)) =
      [.callLoginUser ⟨"sana", "pw"⟩,
       .respond ⟨401, .jsonError ("Error logging in user saving user: " ++ "DB down")⟩])
  ∧ (getUser (some "sana") (.value (getUserByUsername (.fail "DB down") "sana")) =
      [.callGetUserByUsername "sana",
       .respond ⟨404, .jsonError ("Error when saving user: " ++ "DB down")⟩])
  ∧ ((SvcCall.throw : SvcCall UserResponse) = .throw) := by
  have h := c9_caught_storage_error_status "DB down" "sana" "sana" "pw"
    (by decide) (by decide) (by decide)
  refine ⟨h.1, h.2.1, ?_⟩
  exact h.2.2.2.2.1 (some "sana") .throw ⟨500, .jsonError "Server error."⟩ rfl
    (by simp [getUser, truthyStr])

/-- C10: a present-but-empty `username` or `password` in signup, login or
reset-password, and a present-but-empty `msg` or `msgFrom` in add-message, are
falsy and hence rejected with 400 exactly as if the field were absent: the
trace equals the missing-field trace and contains no service call. -/
theorem c10_empty_string_is_missing (p u : Option String) (now : Nat)
    (svc : SvcCall UserResponse) (b : MessageToAdd) (svcM : SvcCall MessageResponse) :
    (createUser ⟨some "", p⟩ now svc =
        [.respond ⟨400, .jsonError "Username and password are required."⟩]
      ∧ createUser ⟨some "", p⟩ now svc = createUser ⟨none, p⟩ now svc)
  ∧ (createUser ⟨u, some ""⟩ now svc =
        [.respond ⟨400, .jsonError "Username and password are required."⟩]
      ∧ createUser ⟨u, some ""⟩ now svc = createUser ⟨u, none⟩ now svc)
  ∧ (userLogin ⟨some "", p⟩ svc =
        [.respond ⟨400, .jsonError "Username and password are required."⟩]
      ∧ userLogin ⟨some "", p⟩ svc = userLogin ⟨none, p⟩ svc)
  ∧ (userLogin ⟨u, some ""⟩ svc =
        [.respond ⟨400, .jsonError "Username and password are required."⟩]
      ∧ userLogin ⟨u, some ""⟩ svc = userLogin ⟨u, none⟩ svc)
  ∧ (resetPassword ⟨some "", p⟩ svc =
        [.respond ⟨400, .jsonError "Username and new password are required."⟩]
      ∧ resetPassword ⟨some "", p⟩ svc = resetPassword ⟨none, p⟩ svc)
  ∧ (resetPassword ⟨u, some ""⟩ svc =
        [.respond ⟨400, .jsonError "Username and new password are required."⟩]
      ∧ resetPassword ⟨u, some ""⟩ svc = resetPassword ⟨u, none⟩ svc)
  ∧ (addMessageRoute (some { b with msg := some "" }) svcM =
        [.respond ⟨400, .jsonError "Invalid message body"⟩]
      ∧ addMessageRoute (some { b with msg := some "" }) svcM =
          addMessageRoute (some { b with msg := none }) svcM)
  ∧ (addMessageRoute (some { b with msgFrom := some "" }) svcM =
        [.respond ⟨400, .jsonError "Invalid message body"⟩]
      ∧ addMessageRoute (some { b with msgFrom := some "" }) svcM =
          addMessageRoute (some { b with msgFrom := none }) svcM) := by
  refine ⟨⟨?_, ?_⟩, ⟨?_, ?_⟩, ⟨?_, ?_⟩, ⟨?_, ?_⟩, ⟨?_, ?_⟩, ⟨?_, ?_⟩, ⟨?_, ?_⟩,
    ⟨?_, ?_⟩⟩ <;>
    simp [createUser, userLogin, resetPassword, addMessageRoute, isUserBodyValid,
      isRequestValid, truthyStr, truthyDate]

end Spec2Proof
